import Mathlib

/-
Formal model of the DataLathe terminal client core (datalathe-tui).

Each definition is a shallow embedding of one function of the TypeScript
source, translated statement by statement:
  - src/hooks/use-async.ts        -> namespace UseAsync
  - src/hooks/use-navigation.ts   -> namespace Nav
  - src/hooks/use-panel-focus.ts  -> namespace PanelFocus
  - query screen chipColumns/chipLabel/headerParts -> namespace ChipLayout
  - src/components/table-view.tsx -> namespace TV
JavaScript numbers are modelled as Int where subtraction may go negative and
as Nat where every operation provably stays nonnegative; Math.floor on a
nonnegative quotient is integer division.
-/

namespace UseAsync

/-- State of one useAsync hook instance: the three useState cells
(data, loading, error), the mountedRef cell, and bookkeeping that names the
issued requests (nextGen counts issues, pending lists outstanding ones).
The bookkeeping exists only so properties can speak about which request a
response answers; the source code never consults it - its response handlers
test only mountedRef.current. -/
structure AsyncState (V : Type) where
  data    : Option V
  loading : Bool
  error   : Option String
  mounted : Bool
  nextGen : Nat
  pending : List Nat
deriving Repr, DecidableEq

/-- Events a hook instance can undergo: a manual refetch call, a change of
the dependency key (cleanup of the old effect followed by the new effect),
unmount of the owning screen, and arrival of the response to request gen
(fulfilled with a value, or rejected with a message). -/
inductive Event (V : Type) where
  | refetch
  | depsChange
  | unmount
  | arriveSuccess (gen : Nat) (v : V)
  | arriveFailure (gen : Nat) (msg : String)

/-- Whether an event is the arrival of a response. -/
def Event.isArrival {V : Type} : Event V → Bool
  | .arriveSuccess _ _ => true
  | .arriveFailure _ _ => true
  | _ => false

/-- execute (use-async.ts lines 21-38): setLoading(true); setError(null);
then call the producer, which issues request number nextGen. The data cell
is not touched. -/
def execute {V : Type} (s : AsyncState V) : AsyncState V :=
  { s with loading := true, error := none,
           nextGen := s.nextGen + 1, pending := s.pending ++ [s.nextGen] }

/-- Effect body (use-async.ts lines 40-46): mountedRef.current = true, then
execute(). -/
def mountEffect {V : Type} (s : AsyncState V) : AsyncState V :=
  execute { s with mounted := true }

/-- Effect cleanup (use-async.ts lines 43-45): mountedRef.current = false. -/
def cleanup {V : Type} (s : AsyncState V) : AsyncState V :=
  { s with mounted := false }

/-- The useState initial values (lines 14-17): data null, loading true,
error null; mountedRef starts true; no request issued yet. -/
def initialRender (V : Type) : AsyncState V :=
  { data := none, loading := true, error := none,
    mounted := true, nextGen := 0, pending := [] }

/-- State after the first effect run on mount: request 0 has been issued. -/
def afterMount (V : Type) : AsyncState V :=
  mountEffect (initialRender V)

/-- Fulfillment handler (lines 26-31): if (mountedRef.current) then
setData(result); setLoading(false). The request gen is resolved either way;
note the guard tests only mountedRef - the handler has no request tag. -/
def applySuccess {V : Type} (s : AsyncState V) (gen : Nat) (v : V) : AsyncState V :=
  let s1 := { s with pending := s.pending.erase gen }
  if s.mounted then { s1 with data := some v, loading := false } else s1

/-- Rejection handler (lines 32-37): if (mountedRef.current) then
setError(message); setLoading(false). The data cell is not touched. -/
def applyFailure {V : Type} (s : AsyncState V) (gen : Nat) (msg : String) : AsyncState V :=
  let s1 := { s with pending := s.pending.erase gen }
  if s.mounted then { s1 with error := some msg, loading := false } else s1

/-- One event of the hook lifecycle. A dependency-key change runs the old
effect cleanup and then the new effect (which re-executes). -/
def step {V : Type} (s : AsyncState V) : Event V → AsyncState V
  | .refetch => execute s
  | .depsChange => mountEffect (cleanup s)
  | .unmount => cleanup s
  | .arriveSuccess gen v => applySuccess s gen v
  | .arriveFailure gen msg => applyFailure s gen msg

/-- Run a sequence of events. -/
def run {V : Type} (s : AsyncState V) (evs : List (Event V)) : AsyncState V :=
  evs.foldl step s

/-- The visible part of the hook state: the (data, loading, error) triple
returned to the owning screen. -/
def visible {V : Type} (s : AsyncState V) : Option V × Bool × Option String :=
  (s.data, s.loading, s.error)

end UseAsync

namespace Nav

/-- Screen identifiers (use-navigation.ts lines 3-9). -/
inductive Screen where
  | connect
  | home
  | databaseTables
  | createChip
  | chipDetail
  | query
deriving Repr, DecidableEq

/-- Parameter bag of a navigation entry. The navigation code never inspects
the values (Record of string to unknown); modelled as string pairs. -/
abbrev Params := List (String × String)

/-- One history entry (use-navigation.ts lines 11-14). -/
structure NavigationState where
  screen : Screen
  params : Params
deriving Repr, DecidableEq

/-- Initial history (lines 17-19): a single entry for the initial screen
with an empty parameter bag. -/
def initialHistory (initial : Screen) : List NavigationState :=
  [{ screen := initial, params := [] }]

/-- navigate (lines 23-28): append a new entry. -/
def navigate (h : List NavigationState) (screen : Screen) (params : Params) :
    List NavigationState :=
  h ++ [{ screen := screen, params := params }]

/-- goBack (lines 30-32): h.slice(0, -1) when more than one entry remains,
otherwise the history is left unchanged. -/
def goBack (h : List NavigationState) : List NavigationState :=
  if 1 < h.length then h.dropLast else h

/-- goHome (lines 34-36): replace the whole history with a single home
entry. -/
def goHome (_h : List NavigationState) : List NavigationState :=
  [{ screen := .home, params := [] }]

/-- current (line 21): history[history.length - 1]. -/
def current (h : List NavigationState) : Option NavigationState :=
  h.getLast?

/-- Histories reachable from the initial one through the three mutations. -/
inductive Reachable (initial : Screen) : List NavigationState → Prop where
  | init : Reachable initial (initialHistory initial)
  | nav {h s p} : Reachable initial h → Reachable initial (navigate h s p)
  | back {h} : Reachable initial h → Reachable initial (goBack h)
  | home {h} : Reachable initial h → Reachable initial (goHome h)

end Nav

namespace PanelFocus

/-- Panels (use-panel-focus.ts line 4). -/
inductive Panel where
  | main
  | databases
  | chips
deriving Repr, DecidableEq, Inhabited

/-- PANEL_ORDER (line 6). -/
def PANEL_ORDER : List Panel := [.main, .databases, .chips]

/-- focusNext (lines 11-16): PANEL_ORDER[(idx + 1) % PANEL_ORDER.length].
The index is always in range, so the getD default is never reached. -/
def focusNext (cur : Panel) : Panel :=
  let idx := PANEL_ORDER.indexOf cur
  PANEL_ORDER.getD ((idx + 1) % PANEL_ORDER.length) .main

/-- focusPrevious (lines 18-23):
PANEL_ORDER[(idx - 1 + PANEL_ORDER.length) % PANEL_ORDER.length]. The
index arithmetic is over Int because idx - 1 is -1 in JavaScript when idx
is 0; the dividend idx - 1 + 3 is nonnegative for every panel, so the
JavaScript remainder coincides with Int emod and wrap-around from the
first panel reaches the last one. -/
def focusPrevious (cur : Panel) : Panel :=
  let idx : Int := PANEL_ORDER.indexOf cur
  PANEL_ORDER.getD
    (((idx - 1 + (PANEL_ORDER.length : Int)) % (PANEL_ORDER.length : Int)).toNat)
    .main

/-- focusPanel (lines 25-27): jump directly. -/
def focusPanel (_cur : Panel) (panel : Panel) : Panel := panel

/-- The tab/shift flags of a key event as seen by useInput. -/
structure Key where
  tab : Bool
  shift : Bool
deriving Repr, DecidableEq

/-- The useInput handler of the controller (lines 29-36): while inputActive
it returns before dispatching; otherwise shift+tab cycles backwards and tab
cycles forwards. The result is the active panel after the key event. -/
def handleInput (inputActive : Bool) (key : Key) (cur : Panel) : Panel :=
  if inputActive then cur
  else if key.tab && key.shift then focusPrevious cur
  else if key.tab then focusNext cur
  else cur

end PanelFocus

namespace ChipLayout

/-- The four column widths of a chip row (query screen, chipColumns). -/
structure ChipCols where
  nameW  : Int
  tableW : Int
  dateW  : Int
  descW  : Int
deriving Repr, DecidableEq

/-- chipColumns (query screen lines 37-48). usable = availableWidth - 4
(MultiSelect indicator), fixed = 18 (date 12 + three gaps 6),
flex = max(30, usable - fixed), nameW = max(10, floor(flex * 0.3)),
tableW = max(10, floor(flex * 0.35)), dateW = 12,
descW = max(0, usable - nameW - tableW - dateW - 6). Math.floor of the
double products equals integer division by 10 and 100 here because flex is
a positive integer far below the precision limit. -/
def chipColumns (availableWidth : Int) : ChipCols :=
  let usable := availableWidth - 4
  let fixed : Int := 18
  let flex := max 30 (usable - fixed)
  let nameW := max 10 (flex * 3 / 10)
  let tableW := max 10 (flex * 35 / 100)
  let dateW : Int := 12
  let descW := max 0 (usable - nameW - tableW - dateW - 6)
  { nameW := nameW, tableW := tableW, dateW := dateW, descW := descW }

/-- Widths of the parts of one chip label row (chipLabel lines 62-64): the
name, table and date cells, then the description cell exactly when
descW > 5. -/
def chipLabelWidths (cols : ChipCols) : List Int :=
  let parts := [cols.nameW, cols.tableW, cols.dateW]
  if cols.descW > 5 then parts ++ [cols.descW] else parts

/-- Widths of the parts of the header row (query screen lines 198-199):
Name, Tables and Created, then Description exactly when descW > 5. -/
def headerWidths (cols : ChipCols) : List Int :=
  let parts := [cols.nameW, cols.tableW, cols.dateW]
  if cols.descW > 5 then parts ++ [cols.descW] else parts

/-- Total character budget of one rendered chip row: the 4-character
indicator margin plus the cells joined by two-space gaps (chipLabel joins
three cells, or four when the description is present). -/
def chipRowWidth (availableWidth : Int) : Int :=
  let c := chipColumns availableWidth
  4 + c.nameW + 2 + c.tableW + 2 + c.dateW +
    (if c.descW > 5 then 2 + c.descW else 0)

/-- The leftover width after the indicator margin, the name, table and date
columns and their gaps: the quantity whose clamp to 0 the source stores in
descW. -/
def descLeftover (availableWidth : Int) : Int :=
  let c := chipColumns availableWidth
  (availableWidth - 4) - c.nameW - c.tableW - c.dateW - 6

end ChipLayout

namespace TV

/-- A row of the grid: the ordered key/value pairs of one record, with the
cell values already rendered to strings. -/
abbrev Row := List (String × String)

/-- MAX_COL_WIDTH (table-view.tsx line 5). -/
def MAX_COL_WIDTH : Nat := 30

/-- SCROLL_STEP (line 6). -/
def SCROLL_STEP : Nat := 8

/-- truncate (lines 17-19): s.slice(0, max - 1) + an ellipsis when s is
longer than max, otherwise s unchanged. At every call site max is at least
the length of some nonempty candidate whenever s is nonempty, so the
JavaScript negative-index case of slice is unreachable. -/
def truncate (s : String) (max : Nat) : String :=
  if s.length > max then (s.take (max - 1)) ++ "…" else s

/-- pad (line 50): right-pad with spaces to width w. -/
def pad (s : String) (w : Nat) : String :=
  s ++ String.mk (List.replicate (w - s.length) ' ')

/-- columns (line 38): Object.keys(data[0]). The caller has already
returned early on empty data. -/
def columns (data : List Row) : List String :=
  (data.headD []).map Prod.fst

/-- String(row[col] ?? "") (lines 44 and 61): the value at the first
matching key, or the empty string when the key is absent. -/
def cell (row : Row) (col : String) : String :=
  ((row.find? (fun p => p.1 == col)).map Prod.snd).getD ""

/-- One column width (lines 41-48): the running maximum of the header
length and every cell length, capped at MAX_COL_WIDTH. -/
def colWidth (data : List Row) (col : String) : Nat :=
  min (data.foldl (fun m row => max m (cell row col).length) col.length)
    MAX_COL_WIDTH

/-- widths (lines 41-48). -/
def widths (data : List Row) : List Nat :=
  (columns data).map (colWidth data)

/-- headerStr (lines 53-55): each column name truncated and padded to its
width, joined by a vertical-bar separator. -/
def headerStr (data : List Row) : String :=
  String.intercalate " │ "
    (((columns data).zip (widths data)).map fun p => pad (truncate p.1 p.2) p.2)

/-- totalWidth (line 67): the length of the full header row. -/
def totalWidth (data : List Row) : Nat :=
  (headerStr data).length

/-- pageSize (line 70): max(1, viewHeight - 4). -/
def pageSize (viewHeight : Nat) : Nat :=
  max 1 (viewHeight - 4)

/-- maxScrollY (line 71): max(0, rowCount - pageSize); Nat subtraction is
the clamp at 0. -/
def maxScrollY (data : List Row) (viewHeight : Nat) : Nat :=
  data.length - pageSize viewHeight

/-- clampedY (line 72): min(scrollY, maxScrollY). -/
def clampedY (data : List Row) (viewHeight scrollY : Nat) : Nat :=
  min scrollY (maxScrollY data viewHeight)

/-- maxScrollX (line 76): max(0, totalWidth - viewWidth); Nat subtraction
is the clamp at 0. -/
def maxScrollX (data : List Row) (viewWidth : Nat) : Nat :=
  totalWidth data - viewWidth

/-- The page-down transition (line 97): min(maxScrollY, y + pageSize). -/
def pageDown (data : List Row) (viewHeight scrollY : Nat) : Nat :=
  min (maxScrollY data viewHeight) (scrollY + pageSize viewHeight)

/-- page (line 101): floor(clampedY / pageSize) + 1. -/
def page (data : List Row) (viewHeight scrollY : Nat) : Nat :=
  clampedY data viewHeight scrollY / pageSize viewHeight + 1

/-- totalPages (line 102): Math.ceil(rowCount / pageSize), the exact
ceiling of the division since both operands are integers. -/
def totalPages (data : List Row) (viewHeight : Nat) : Nat :=
  (data.length + pageSize viewHeight - 1) / pageSize viewHeight

/-- colInfo (line 103). -/
def colInfo (data : List Row) : String :=
  toString (columns data).length ++ " cols"

/-- rowInfo (line 104). -/
def rowInfo (data : List Row) : String :=
  toString data.length ++ " rows"

/-- pageInfo (line 105): the page indicator when more than one page exists,
otherwise the empty string. -/
def pageInfo (data : List Row) (viewHeight scrollY : Nat) : String :=
  if totalPages data viewHeight > 1 then
    "pg " ++ toString (page data viewHeight scrollY) ++ "/" ++
      toString (totalPages data viewHeight)
  else ""

/-- hInfo (line 106): the pan marker when horizontal scrolling exists,
otherwise the empty string. -/
def hInfo (data : List Row) (viewWidth : Nat) : String :=
  if maxScrollX data viewWidth > 0 then "col ◄►" else ""

/-- statusParts (line 107): the four candidates filtered to the truthy
(nonempty) ones. -/
def statusParts (data : List Row) (viewWidth viewHeight scrollY : Nat) :
    List String :=
  [colInfo data, rowInfo data, pageInfo data viewHeight scrollY,
    hInfo data viewWidth].filter (fun s => s != "")

end TV

/-- A query-result grid of 500 identical single-column rows, as produced by
a query returning 500 records with one column named a. -/
def data500 : List TV.Row := List.replicate 500 [("a", "x")]

/-- A query-result grid of one single-column row. -/
def oneRowGrid : List TV.Row := [[("a", "x")]]

lemma goBack_ne_nil (h : List Nav.NavigationState) (hne : h ≠ []) :
    Nav.goBack h ≠ [] := by
  simp only [Nav.goBack]
  split
  · rename_i hlt
    intro hd
    have hl := List.length_dropLast h
    rw [hd] at hl
    simp only [List.length_nil] at hl
    omega
  · exact hne

/-- C3: for every navigation stack of length 1, goBack leaves the stack
unchanged; for every stack of length greater than 1, goBack removes exactly
the last entry, reducing the length by exactly 1 and leaving all earlier
entries unchanged. -/
theorem nav_pop_spec (h : List Nav.NavigationState) :
    (h.length = 1 → Nav.goBack h = h) ∧
    (1 < h.length →
      (Nav.goBack h).length = h.length - 1 ∧
      ∀ i, i < h.length - 1 → (Nav.goBack h)[i]? = h[i]?) := by
  constructor
  · intro h1
    simp [Nav.goBack, h1]
  · intro h1
    simp only [Nav.goBack, if_pos h1]
    refine ⟨List.length_dropLast h, ?_⟩
    intro i hi
    rw [List.dropLast_eq_take, List.getElem?_take_of_lt hi]

/-- Witness for C3 at concrete stacks of length 1 and 2. -/
theorem nav_pop_spec_witness :
    Nav.goBack [{ screen := .home, params := [] }] =
      [{ screen := .home, params := [] }] ∧
    (Nav.goBack [{ screen := .home, params := [] },
      { screen := .query, params := [] }]).length = 1 :=
  ⟨(nav_pop_spec _).1 rfl,
   ((nav_pop_spec [{ screen := .home, params := [] },
      { screen := .query, params := [] }]).2 (by decide)).1⟩

/-- C4: the navigation history is non-empty in every reachable state: the
initial state holds exactly one entry, each operation maps a non-empty
history to a non-empty history, and every reachable history is
non-empty. -/
theorem nav_nonempty (i : Nav.Screen) :
    (Nav.initialHistory i).length = 1 ∧
    (∀ (h : List Nav.NavigationState) (s : Nav.Screen) (p : Nav.Params),
      h ≠ [] → Nav.navigate h s p ≠ []) ∧
    (∀ h : List Nav.NavigationState, h ≠ [] → Nav.goBack h ≠ []) ∧
    (∀ h : List Nav.NavigationState, Nav.goHome h ≠ []) ∧
    (∀ h : List Nav.NavigationState, Nav.Reachable i h → h ≠ []) := by
  refine ⟨rfl, ?_, goBack_ne_nil, ?_, ?_⟩
  · intro h s p _
    simp [Nav.navigate]
  · intro h
    simp [Nav.goHome]
  · intro h hr
    induction hr with
    | init => simp [Nav.initialHistory]
    | nav _ _ => simp [Nav.navigate]
    | back _ ih => exact goBack_ne_nil _ ih
    | home _ _ => simp [Nav.goHome]

/-- Witness for C4 at concrete histories. -/
theorem nav_nonempty_witness :
    Nav.navigate [{ screen := .home, params := [] }] .query [] ≠ [] ∧
    Nav.goBack [{ screen := .home, params := [] }] ≠ [] ∧
    [({ screen := .connect, params := [] } : Nav.NavigationState)] ≠ [] :=
  ⟨(nav_nonempty .connect).2.1 _ _ _ (by decide),
   (nav_nonempty .connect).2.2.1 _ (by decide),
   (nav_nonempty .connect).2.2.2.2 _ .init⟩

/-- C9: while the active screen reports input-active, the focus controller
key handler maps every key event (in particular Tab and Shift-Tab) to the
unchanged current panel: the suppression happens inside the handler
itself. -/
theorem panel_cycle_suppressed (key : PanelFocus.Key) (p : PanelFocus.Panel) :
    PanelFocus.handleInput true key p = p := rfl

/-- C5: for every availableWidth of at least 40, the chip columns together
with the 4-character indicator margin and the inter-column gaps fit into
availableWidth. -/
theorem chip_row_budget (w : Int) (hw : 40 ≤ w) :
    ChipLayout.chipRowWidth w ≤ w := by
  simp only [ChipLayout.chipRowWidth, ChipLayout.chipColumns]
  omega

/-- Witness for C5 at availableWidth 60. -/
theorem chip_row_budget_witness :
    (40 : Int) ≤ 60 ∧ ChipLayout.chipRowWidth 60 ≤ 60 :=
  ⟨by decide, chip_row_budget 60 (by decide)⟩

/-- C6: at availableWidth 60 the name and table columns both receive at
least 10 characters; for every availableWidth the description column is
part of a chip row exactly when the leftover width is at least 6; and the
header row carries the description cell exactly when the data rows do. -/
theorem chip_layout_scenario :
    10 ≤ (ChipLayout.chipColumns 60).nameW ∧
    10 ≤ (ChipLayout.chipColumns 60).tableW ∧
    (∀ w : Int,
      ((ChipLayout.chipLabelWidths (ChipLayout.chipColumns w)).length = 4 ↔
        6 ≤ ChipLayout.descLeftover w)) ∧
    ∀ c : ChipLayout.ChipCols,
      ChipLayout.headerWidths c = ChipLayout.chipLabelWidths c := by
  refine ⟨by decide, by decide, ?_, fun c => rfl⟩
  intro w
  simp only [ChipLayout.chipLabelWidths, ChipLayout.descLeftover,
    ChipLayout.chipColumns]
  split
  · rename_i hcond
    simp only [List.length_append, List.length_cons, List.length_nil]
    constructor
    · intro _
      omega
    · intro _
      trivial
  · rename_i hcond
    simp only [List.length_cons, List.length_nil]
    constructor
    · intro hlen
      omega
    · intro hleft
      omega

/-- C1: the supersession claim fails on the code. Request 0 is issued on
mount; a refetch issues request 1; the response of request 1 (value 2)
arrives first, then the response of the superseded request 0 (value 1)
arrives while the screen is still mounted. The handler tests only
mountedRef, so the stale response is applied and the final visible state
shows the value of request 0, not that of request 1. -/
theorem async_stale_overwrite :
    UseAsync.visible
      (UseAsync.run (UseAsync.afterMount Nat)
        [.refetch, .arriveSuccess 1 2, .arriveSuccess 0 1]) =
      (some 1, false, none) ∧
    UseAsync.visible
      (UseAsync.run (UseAsync.afterMount Nat)
        [.refetch, .arriveSuccess 1 2, .arriveSuccess 0 1]) ≠
      (some 2, false, none) := by
  decide

lemma visible_run_arrivals_of_unmounted {V : Type}
    (evs : List (UseAsync.Event V)) (s : UseAsync.AsyncState V)
    (hm : s.mounted = false) (h : ∀ e ∈ evs, e.isArrival = true) :
    UseAsync.visible (UseAsync.run s evs) = UseAsync.visible s := by
  induction evs generalizing s with
  | nil => rfl
  | cons e evs ih =>
    have he := h e (List.mem_cons_self ..)
    have hstep : UseAsync.visible (UseAsync.step s e) = UseAsync.visible s ∧
        (UseAsync.step s e).mounted = false := by
      cases e <;>
        simp_all [UseAsync.step, UseAsync.Event.isArrival,
          UseAsync.applySuccess, UseAsync.applyFailure, UseAsync.visible]
    calc UseAsync.visible (UseAsync.run s (e :: evs))
        = UseAsync.visible (UseAsync.run (UseAsync.step s e) evs) := rfl
      _ = UseAsync.visible (UseAsync.step s e) :=
          ih _ hstep.2 (fun x hx => h x (List.mem_cons_of_mem _ hx))
      _ = UseAsync.visible s := hstep.1

/-- C2: once the owning screen is unmounted, any sequence of arriving
responses (successes or failures, for any requests) leaves the visible
data, loading and error fields exactly as they were. -/
theorem async_unmount_discard {V : Type} (s : UseAsync.AsyncState V)
    (evs : List (UseAsync.Event V)) (h : ∀ e ∈ evs, e.isArrival = true) :
    UseAsync.visible (UseAsync.run (UseAsync.step s .unmount) evs) =
      UseAsync.visible s := by
  rw [visible_run_arrivals_of_unmounted evs _ rfl h]
  rfl

/-- Witness for C2: a success and a failure response both arrive after the
unmount and change nothing visible. -/
theorem async_unmount_discard_witness :
    UseAsync.visible
      (UseAsync.run (UseAsync.step (UseAsync.afterMount Nat) .unmount)
        [.arriveSuccess 0 7, .arriveFailure 0 "boom"]) =
      UseAsync.visible (UseAsync.afterMount Nat) :=
  async_unmount_discard _ _ (by decide)

lemma data_run_no_arrival {V : Type} (evs : List (UseAsync.Event V))
    (s : UseAsync.AsyncState V) (h : ∀ e ∈ evs, e.isArrival = false) :
    (UseAsync.run s evs).data = s.data := by
  induction evs generalizing s with
  | nil => rfl
  | cons e evs ih =>
    have he := h e (List.mem_cons_self ..)
    have hstep : (UseAsync.step s e).data = s.data := by
      cases e <;>
        simp_all [UseAsync.step, UseAsync.Event.isArrival, UseAsync.execute,
          UseAsync.mountEffect, UseAsync.cleanup]
    calc (UseAsync.run s (e :: evs)).data
        = (UseAsync.run (UseAsync.step s e) evs).data := rfl
      _ = (UseAsync.step s e).data :=
          ih _ (fun x hx => h x (List.mem_cons_of_mem _ hx))
      _ = s.data := hstep

/-- C10: a refetch sets loading to true and resets error to null but leaves
data untouched, and data stays unchanged through any further non-arrival
events until a response arrives. -/
theorem async_refetch_keeps_data {V : Type} (s : UseAsync.AsyncState V)
    (evs : List (UseAsync.Event V)) (h : ∀ e ∈ evs, e.isArrival = false) :
    (UseAsync.step s .refetch).data = s.data ∧
    (UseAsync.step s .refetch).loading = true ∧
    (UseAsync.step s .refetch).error = none ∧
    (UseAsync.run (UseAsync.step s .refetch) evs).data = s.data := by
  exact ⟨rfl, rfl, rfl, data_run_no_arrival evs _ h⟩

/-- Witness for C10 at a concrete state and event sequence. -/
theorem async_refetch_keeps_data_witness :
    (UseAsync.step (UseAsync.afterMount Nat) .refetch).data =
      (UseAsync.afterMount Nat).data ∧
    (UseAsync.step (UseAsync.afterMount Nat) .refetch).loading = true ∧
    (UseAsync.step (UseAsync.afterMount Nat) .refetch).error = none ∧
    (UseAsync.run (UseAsync.step (UseAsync.afterMount Nat) .refetch)
      [.refetch, .depsChange]).data = (UseAsync.afterMount Nat).data :=
  async_refetch_keeps_data _ _ (by decide)

set_option maxRecDepth 40000 in
/-- C7: on a 500-row grid with a viewport height giving pageSize 20, the
initial scroll row 0 shows page 1 of 25; one page-down moves the scroll row
to 20 and shows page 2 of 25; thirty page-downs clamp the scroll row at 480
and show page 25 of 25. -/
theorem table_paging_scenario :
    TV.pageSize 24 = 20 ∧
    TV.pageInfo data500 24 0 = "pg 1/25" ∧
    TV.pageDown data500 24 0 = 20 ∧
    TV.pageInfo data500 24 (TV.pageDown data500 24 0) = "pg 2/25" ∧
    (fun y => TV.pageDown data500 24 y)^[30] 0 = 480 ∧
    TV.pageInfo data500 24 ((fun y => TV.pageDown data500 24 y)^[30] 0) =
      "pg 25/25" := by
  decide


lemma append_ne_empty_right (s t : String) (ht : t.length ≠ 0) :
    s ++ t ≠ "" := by
  intro hst
  have h2 := congrArg String.length hst
  rw [String.length_append, String.length_empty] at h2
  omega

lemma append_ne_empty_left (s t : String) (hs : s.length ≠ 0) :
    s ++ t ≠ "" := by
  intro hst
  have h2 := congrArg String.length hst
  rw [String.length_append, String.length_empty] at h2
  omega

lemma pg_string_ne_empty (a b : String) : "pg " ++ a ++ "/" ++ b ≠ "" := by
  apply append_ne_empty_left
  rw [String.length_append]
  have h1 : ("/" : String).length = 1 := rfl
  omega

/-- C8 amended: for every non-empty grid the status line always carries the
column count and the row count; it carries the page indicator, computed as
floor of the clamped scroll row over pageSize plus 1 out of the ceiling of
rowCount over pageSize, exactly when there is more than one page; and it
carries the pan marker exactly when horizontal panning is available. -/
theorem status_line_report (data : List TV.Row) (vw vh sy : Nat)
    (_hne : data ≠ []) :
    TV.statusParts data vw vh sy =
      [toString (TV.columns data).length ++ " cols",
        toString data.length ++ " rows"] ++
      (if 1 < TV.totalPages data vh then
        ["pg " ++ toString (TV.clampedY data vh sy / TV.pageSize vh + 1) ++
          "/" ++ toString ((data.length + TV.pageSize vh - 1) / TV.pageSize vh)]
      else []) ++
      (if 0 < TV.maxScrollX data vw then ["col ◄►"] else []) := by
  have hc : (TV.colInfo data != "") = true :=
    bne_iff_ne.mpr (append_ne_empty_right _ _ (by decide))
  have hr : (TV.rowInfo data != "") = true :=
    bne_iff_ne.mpr (append_ne_empty_right _ _ (by decide))
  have hcx : (("col ◄►" : String) != "") = true := by decide
  have hemp : (("" : String) != "") = false := by decide
  by_cases hp : 1 < TV.totalPages data vh
  · have hpg : ("pg " ++ toString (TV.page data vh sy) ++ "/" ++
        toString (TV.totalPages data vh) != "") = true :=
      bne_iff_ne.mpr (pg_string_ne_empty _ _)
    by_cases hx : 0 < TV.maxScrollX data vw
    · simp only [TV.statusParts, TV.pageInfo, TV.hInfo, gt_iff_lt,
        if_pos hp, if_pos hx, List.filter_cons, List.filter_nil,
        hc, hr, hpg, hcx, if_true]
      simp [TV.colInfo, TV.rowInfo, TV.page, TV.totalPages]
    · simp only [TV.statusParts, TV.pageInfo, TV.hInfo, gt_iff_lt,
        if_pos hp, if_neg hx, List.filter_cons, List.filter_nil,
        hc, hr, hpg, hemp, if_true, if_false]
      simp [TV.colInfo, TV.rowInfo, TV.page, TV.totalPages]
  · by_cases hx : 0 < TV.maxScrollX data vw
    · simp only [TV.statusParts, TV.pageInfo, TV.hInfo, gt_iff_lt,
        if_neg hp, if_pos hx, List.filter_cons, List.filter_nil,
        hc, hr, hemp, hcx, if_true, if_false]
      simp [TV.colInfo, TV.rowInfo]
    · simp only [TV.statusParts, TV.pageInfo, TV.hInfo, gt_iff_lt,
        if_neg hp, if_neg hx, List.filter_cons, List.filter_nil,
        hc, hr, hemp, if_true, if_false]
      simp [TV.colInfo, TV.rowInfo]

/-- Witness for the amended C8 on a concrete one-row grid. -/
theorem status_line_report_witness :
    TV.statusParts oneRowGrid 80 24 0 = ["1 cols", "1 rows"] := by
  rw [status_line_report oneRowGrid 80 24 0 (by decide)]
  decide

/-- C8 counterexample: on a non-empty single-page grid the rendered status
line consists of the column and row counts only; the page report the claim
promises (here pg 1/1) is absent. -/
theorem status_line_missing_page :
    TV.statusParts oneRowGrid 80 24 0 = ["1 cols", "1 rows"] ∧
    ("pg " ++ toString (TV.page oneRowGrid 24 0) ++ "/" ++
      toString (TV.totalPages oneRowGrid 24)) ∉
      TV.statusParts oneRowGrid 80 24 0 := by
  decide
